import Mathlib

/-!
# Verification of the activetigger front-end request/response layer

This development shallowly embeds the request/response layer of the
activetigger browser client (`frontend/src/core/api.ts`, the newer copy of the
same module embedded in `frontend/src/components/SimpleModelManagement.tsx`,
and `frontend/src/components/forms/ImportPredictionDataset.tsx`).

Conventions of the embedding:
* The network is external: every hook is modelled as a pure function from the
  server's `ApiResponse` (the `{data, error, response}` record produced by
  openapi-fetch) to its observable effects — the number of HTTP calls issued,
  the list of emitted notifications, the save actions, and the returned value.
* Function arguments that only feed the HTTP request payload (and are never
  branched on) are omitted, since request bodies are not modelled.
* JavaScript truthiness of an optional value is `Option.isSome`; truthiness of
  a string is `≠ ""`.
* `localStorage` is threaded explicitly as an `Option Credential` store.
-/

/-- Severity of a toast notification, as in `core/notifications`. -/
inductive NotifType where
  | success
  | info
  | warning
  | error
deriving DecidableEq, Repr

/-- A notification emitted through `useNotifications().notify`. -/
structure Notification where
  type : NotifType
  message : String
deriving DecidableEq, Repr

/-- The `{data, error, response}` result record of an openapi-fetch call:
`data` is set on success, `error` on an HTTP error status, and `status` is
`response.status`. -/
structure ApiResponse (D E : Type) where
  data : Option D
  error : Option E
  status : Nat
deriving DecidableEq, Repr

/-- `HttpError` from `core/HTTPError`: a typed error carrying the HTTP status
and a message. -/
structure HttpError where
  status : Nat
  message : String
deriving DecidableEq, Repr

/-- The persisted credential stored under the `activeTigger.auth` local-storage
key: `{username, token}`. -/
structure Credential where
  username : String
  token : String
deriving DecidableEq, Repr

/-- Outcome of a JS async function call: it returns a value, throws a typed
error, or crashes with a `TypeError` (accessing a field of `undefined`). -/
inductive CallResult (ε α : Type) where
  | ok : α → CallResult ε α
  | raised : ε → CallResult ε α
  | crashed : CallResult ε α
deriving DecidableEq, Repr

/-- Request headers, as an association list of name/value pairs. -/
abbrev Headers := List (String × String)

/-- `Headers.get(name)`: the value of the first entry with the given name. -/
def getHeader (hs : Headers) (name : String) : Option String :=
  match hs with
  | [] => none
  | p :: rest => if p.1 = name then some p.2 else getHeader rest name

/-- `Headers.set(name, value)`: replace the entry with the given name, or
append it if absent. -/
def setHeader (hs : Headers) (name value : String) : Headers :=
  match hs with
  | [] => [(name, value)]
  | p :: rest => if p.1 = name then (name, value) :: rest else p :: setHeader rest name value

/-- Modelled from the spec: `getAuthHeaders` (`core/auth`, not included under
`src/`) is a pure function of the stored credential which "returns a header
map containing the bearer token" (§4.2). -/
def getAuthHeaders (user : Credential) : Option Headers :=
  some [("Authorization", "Bearer " ++ user.token)]

/-- The `authMiddleware` of `core/api.ts`: reads the persisted credential and,
if present, sets every auth header on the request unconditionally
(`request.headers.set(header, value)`). -/
def authMiddlewareApi (stored : Option Credential) (req : Headers) : Headers :=
  match stored with
  | some user =>
    match getAuthHeaders user with
    | some ah => ah.foldl (fun r p => setHeader r p.1 p.2) req
    | none => req
  | none => req

/-- The `authMiddleware` of the api module copy in
`SimpleModelManagement.tsx`: identical, except that a header is set only when
`request.headers.get(header) === null`. -/
def authMiddlewareKeep (stored : Option Credential) (req : Headers) : Headers :=
  match stored with
  | some user =>
    match getAuthHeaders user with
    | some ah =>
      ah.foldl (fun r p => if getHeader r p.1 = none then setHeader r p.1 p.2 else r) req
    | none => req
  | none => req

/-! ## Async-Resource Hook (`useAsyncMemo`) -/

/-- Modelled from the spec: an observable event of one `useAsyncMemo` instance
(`core/useAsyncMemo`, not included under `src/`). A dependency change starts a
new producer invocation; a started invocation later resolves with a value.
Invocations are numbered by start order (§4.3, §9: "each fetch carries a
monotonically increasing sequence number"). -/
inductive HookEvent (α : Type) where
  | start : HookEvent α
  | resolve : Nat → α → HookEvent α
deriving DecidableEq, Repr

/-- Modelled from the spec: the component-local state of one `useAsyncMemo`
instance: the sequence number of the most recently started invocation
(0 when none has started) and the committed (visible) entry, tagged with the
sequence number of the invocation that produced it. -/
structure HookState (α : Type) where
  latest : Nat
  committed : Option (Nat × α)
deriving DecidableEq, Repr

/-- Modelled from the spec: initial hook state — nothing started, nothing
committed. -/
def initHookState (α : Type) : HookState α := ⟨0, none⟩

/-- Modelled from the spec: one transition of the Async-Resource Hook.
"only the highest sequence number's result commits" (§9): a resolution is
committed only when its sequence number is the most recently started one;
a stale resolution leaves the state unchanged (§4.3). -/
def hookStep (s : HookState α) : HookEvent α → HookState α
  | .start => { s with latest := s.latest + 1 }
  | .resolve i v => if i = s.latest then { s with committed := some (i, v) } else s

/-- Run a trace of events from the initial state. -/
def runHook (es : List (HookEvent α)) : HookState α :=
  es.foldl hookStep (initHookState α)

/-- Number of `start` events in a trace. -/
def startCount : List (HookEvent α) → Nat
  | [] => 0
  | HookEvent.start :: es => startCount es + 1
  | HookEvent.resolve _ _ :: es => startCount es

/-! ## Authentication entry points (`login`, `logout`) -/

/-- The error payload read by `login`: the code accesses `res.error.detail`
and string-ifies it (`res.error.detail + ''`). -/
structure DetailError where
  detail : String
deriving DecidableEq, Repr

/-- `login` (`api.ts`): POSTs the form to `/token`; if the response carries
data and no error it returns the token payload, otherwise it throws
`HttpError(res.response.status, res.error.detail + '')` — a `TypeError` crash
if `res.error` were also absent. -/
def login (res : ApiResponse D DetailError) : CallResult HttpError D :=
  match res.data, res.error with
  | some d, none => .ok d
  | _, some e => .raised ⟨res.status, e.detail ++ ""⟩
  | none, none => .crashed

/-- `login` with the local-storage credential threaded through: the body of
`login` contains no store write, so the store is returned unchanged. -/
def loginCall (store : Option Credential) (res : ApiResponse D DetailError) :
    CallResult HttpError D × Option Credential :=
  (login res, store)

/-- `logout` (`api.ts`): POSTs `/users/disconnect`; returns `true` when
`res.response.status === 200`, otherwise throws
`HttpError(res.response.status, 'could not logout')`. -/
def logout (res : ApiResponse D E) : CallResult HttpError Bool :=
  if res.status = 200 then .ok true
  else .raised ⟨res.status, "could not logout"⟩

/-- Modelled from the spec: the auth-context logout flow (`core/auth`, not
included under `src/`) — "Logout request returning HTTP 200 clears local
state; any non-200 response raises an error without clearing it" (§8). The
credential store is cleared exactly when `logout` returns successfully. -/
def logoutFlow (store : Option Credential) (res : ApiResponse D E) :
    CallResult HttpError Bool × Option Credential :=
  match logout res with
  | .ok b => (.ok b, none)
  | .raised e => (.raised e, store)
  | .crashed => (.crashed, store)

/-! ## Mutating Domain Operation Hooks

Each hook is embedded as a pure function of the server response (and of the
parameters it branches on), returning the number of HTTP calls it issues, the
notifications it emits, and its result. All hooks below are translated from
the newer api module copy in `SimpleModelManagement.tsx`; where the claims
also cite `core/api.ts`, the older version differs only in parameter guards,
never in the notification type. -/

/-- One `{msg}` entry of a FastAPI validation-error `detail` array. -/
structure ValidationDetail where
  msg : String
deriving DecidableEq, Repr

/-- The error payload read by `useCreateProject`: a `detail` array of
validation messages (absent for other error shapes) and the value of
`res.error.toString()`. -/
structure CreateProjectError where
  detail : Option (List ValidationDetail)
  asString : String
deriving DecidableEq, Repr

/-- `useCreateProject` (both api module copies): POSTs `/projects/new`; on a
non-error response notifies success "Project created"; on an error response it
throws `new Error(...)` built by joining the detail messages with "; " (or
`res.error.toString()` when `detail` is absent), emitting no notification. -/
def createProject (res : ApiResponse D CreateProjectError) :
    CallResult String Unit × List Notification :=
  match res.error with
  | none => (.ok (), [⟨.success, "Project created"⟩])
  | some e =>
    (.raised (match e.detail with
      | some ds => String.intercalate "; " (ds.map (fun d => d.msg))
      | none => e.asString), [])

/-- `useRenameLabel` (`SimpleModelManagement.tsx` copy): with both parameters
present it POSTs `/schemes/label/rename` and notifies success "Label renamed"
or error "Error when renamed"; it returns `true` in every case (also when the
parameters are missing and no call is made). -/
def renameLabel (projectSlug scheme : Option String) (res : ApiResponse D E) :
    Nat × List Notification × Bool :=
  match projectSlug, scheme with
  | some _, some _ =>
    (1, (if res.error.isNone then [⟨.success, "Label renamed"⟩]
         else [⟨.error, "Error when renamed"⟩]), true)
  | _, _ => (0, [], true)

/-- The data payload of `/elements/next`: the code reads
`res.data?.element_id`. -/
structure ElementNext where
  element_id : String
deriving DecidableEq, Repr

/-- `useGetNextElementId` (`SimpleModelManagement.tsx` copy): with both
parameters present it POSTs `/elements/next` and returns
`res.data?.element_id`; otherwise it performs no call, notifies error
"Select a project/scheme to get elements" and returns `null`. -/
def getNextElementId (projectSlug currentScheme : Option String)
    (res : ApiResponse ElementNext E) : Nat × List Notification × Option String :=
  match projectSlug, currentScheme with
  | some _, some _ => (1, [], res.data.map (fun d => d.element_id))
  | _, _ => (0, [⟨.error, "Select a project/scheme to get elements"⟩], none)

/-- `useAddLabel` (`SimpleModelManagement.tsx` copy): with both parameters
present it POSTs `/schemes/label/add`, notifies success "New label created" on
a non-error response, and returns `true`; otherwise it performs no call, emits
nothing and returns `false`. -/
def addLabel (projectSlug scheme : Option String) (res : ApiResponse D E) :
    Nat × List Notification × Bool :=
  match projectSlug, scheme with
  | some _, some _ =>
    (1, (if res.error.isNone then [⟨.success, "New label created"⟩] else []), true)
  | _, _ => (0, [], false)

/-- `useDeleteScheme` (both api module copies): with `schemeName` present it
POSTs `/schemes/{action}` (action `delete`) and notifies success
"Scheme deleted" on a non-error response; with `schemeName` null it performs
no call and emits nothing. -/
def deleteScheme (schemeName : Option String) (res : ApiResponse D E) :
    Nat × List Notification :=
  match schemeName with
  | some _ => (1, if res.error.isNone then [⟨.success, "Scheme deleted"⟩] else [])
  | none => (0, [])

/-- `useDeleteLabel` (`SimpleModelManagement.tsx` copy): POSTs
`/schemes/label/delete`; success notification "Label deleted". -/
def deleteLabel (projectSlug scheme : Option String) (res : ApiResponse D E) :
    Nat × List Notification × Bool :=
  match projectSlug, scheme with
  | some _, some _ =>
    (1, (if res.error.isNone then [⟨.success, "Label deleted"⟩] else []), true)
  | _, _ => (0, [], false)

/-- `useAddScheme` (`SimpleModelManagement.tsx` copy): with a non-empty
scheme name it POSTs `/schemes/{action}` (action `add`) and notifies success
"Scheme add" on a non-error response. -/
def addScheme (schemeName : String) (res : ApiResponse D E) :
    Nat × List Notification × Option Bool :=
  if schemeName ≠ "" then
    (1, (if res.error.isNone then [⟨.success, "Scheme add"⟩] else []), some true)
  else (0, [], none)

/-- `useDeleteProject` (`SimpleModelManagement.tsx` copy): POSTs
`/projects/delete`; success notification "Project deleted". -/
def deleteProject (res : ApiResponse D E) : Nat × List Notification :=
  (1, if res.error.isNone then [⟨.success, "Project deleted"⟩] else [])

/-- `useAddFeature` (`SimpleModelManagement.tsx` copy): with a truthy feature
type, parameters and project slug it POSTs `/features/add` and notifies
warning "Features are under computation..." on a non-error response, returning
`true`; otherwise no call, no notification, `false`. (The feature-name
defaulting only affects the request payload.) -/
def addFeature (projectSlug : Option String) (featureType : String)
    (featureParameters : Option P) (res : ApiResponse D E) :
    Nat × List Notification × Bool :=
  if featureType ≠ "" ∧ featureParameters.isSome ∧ projectSlug.isSome then
    (1, (if res.error.isNone then [⟨.warning, "Features are under computation..."⟩] else []),
     true)
  else (0, [], false)

/-- `useUpdateSimpleModel` (`SimpleModelManagement.tsx` copy): with project
slug, features, scheme, model and params all truthy it POSTs
`/models/simplemodel` and notifies warning "Model under training" on a
non-error response; it returns `true` in every case. -/
def updateSimpleModel (projectSlug scheme : Option String)
    (features : Option (List String)) (model : String) (params : Option P)
    (res : ApiResponse D E) : Nat × List Notification × Bool :=
  if projectSlug.isSome ∧ features.isSome ∧ scheme.isSome ∧ model ≠ "" ∧ params.isSome then
    (1, (if res.error.isNone then [⟨.warning, "Model under training"⟩] else []), true)
  else (0, [], true)

/-- `useTrainBertModel` (`SimpleModelManagement.tsx` copy): with project slug,
scheme and the form data present it POSTs `/models/bert/train` and notifies
warning "Starting bertmodel training" on a non-error response. -/
def trainBertModel (projectSlug scheme : Option String) (dataForm : Option F)
    (res : ApiResponse D E) : Nat × List Notification × Option Bool :=
  if projectSlug.isSome ∧ scheme.isSome ∧ dataForm.isSome then
    (1, (if res.error.isNone then [⟨.warning, "Starting bertmodel training"⟩] else []),
     some true)
  else (0, [], none)

/-- `useUpdateProjection` (`SimpleModelManagement.tsx` copy): with project
slug, features, scheme and params truthy it POSTs
`/elements/projection/compute` and notifies warning "Projection under
training" on a non-error response; it returns `true` in every case. -/
def updateProjection (projectSlug scheme : Option String)
    (features : Option (List String)) (params : Option P)
    (res : ApiResponse D E) : Nat × List Notification × Bool :=
  if projectSlug.isSome ∧ features.isSome ∧ scheme.isSome ∧ params.isSome then
    (1, (if res.error.isNone then [⟨.warning, "Projection under training"⟩] else []), true)
  else (0, [], true)

/-- `useComputeModelPrediction` (`SimpleModelManagement.tsx` copy): with the
project slug present it POSTs `/models/bert/predict` and notifies warning
"Computing prediction. It can take some time." on a non-error response. -/
def computeModelPrediction (projectSlug : Option String) (res : ApiResponse D E) :
    Nat × List Notification × Option Bool :=
  match projectSlug with
  | some _ =>
    (1, (if res.error.isNone
         then [⟨.warning, "Computing prediction. It can take some time."⟩] else []),
     some true)
  | none => (0, [], none)

/-! ## Export hooks -/

/-- `useGetFeaturesFile` (`SimpleModelManagement.tsx` copy): with the project
slug present it GETs `/export/features` as a blob; on a non-error response it
notifies once and calls `saveAs(res.data, 'features.' + format)` exactly once;
on an error response no save occurs. Save actions are recorded as
`(blob, filename)` pairs. -/
def getFeaturesFile (projectSlug : Option String) (format : String)
    (res : ApiResponse B E) : List Notification × List (Option B × String) × Option Bool :=
  match projectSlug with
  | some _ =>
    if res.error.isNone then
      ([⟨.success, "Exporting the predictions of the model"⟩],
       [(res.data, "features." ++ format)], some true)
    else ([], [], some true)
  | none => ([], [], none)

/-- `useGetAnnotationsFile` (`SimpleModelManagement.tsx` copy): GETs
`/export/data` as a blob; on a non-error response calls
`saveAs(res.data, 'annotations.' + format)` exactly once. -/
def getAnnotationsFile (projectSlug : Option String) (format : String)
    (res : ApiResponse B E) : List Notification × List (Option B × String) × Option Bool :=
  match projectSlug with
  | some _ =>
    if res.error.isNone then
      ([⟨.success, "Exporting the annotated data"⟩],
       [(res.data, "annotations." ++ format)], some true)
    else ([], [], some true)
  | none => ([], [], none)

/-- `useGetPredictionsFile` (`SimpleModelManagement.tsx` copy): GETs
`/export/prediction` as a blob; on a non-error response calls
`saveAs(res.data, 'predictions.' + format)` exactly once. -/
def getPredictionsFile (projectSlug : Option String) (format : String)
    (res : ApiResponse B E) : List Notification × List (Option B × String) × Option Bool :=
  match projectSlug with
  | some _ =>
    if res.error.isNone then
      ([⟨.success, "Exporting the predictions data"⟩],
       [(res.data, "predictions." ++ format)], some true)
    else ([], [], some true)
  | none => ([], [], none)

/-! ## Table-elements hook (`useTableElements`) -/

/-- Page information of `useTableElements`: 1-based page index and page
size. -/
structure PageInfo where
  pageIndex : Nat
  pageSize : Nat
deriving DecidableEq, Repr

/-- The `min`/`max` query-range parameters sent to `/elements/table`. -/
structure TableQuery where
  min : Nat
  max : Nat
deriving DecidableEq, Repr

/-- The data payload of `/elements/table`: a total count and the page
items. -/
structure TableData (I : Type) where
  total : Nat
  items : I
deriving DecidableEq, Repr

/-- `useTableElements` initialises its `total` state to 0
(`useState<number>(0)`). -/
def initialTableTotal : Nat := 0

/-- `useTableElements` query construction:
`min: (pageInfo.pageIndex - 1) * pageInfo.pageSize`,
`max: Math.min(pageInfo.pageIndex * pageInfo.pageSize, total)`. -/
def tableElementsQuery (pageInfo : PageInfo) (total : Nat) : TableQuery :=
  { min := (pageInfo.pageIndex - 1) * pageInfo.pageSize,
    max := Nat.min (pageInfo.pageIndex * pageInfo.pageSize) total }

/-- `useTableElements` response commit: on a non-error response the hook sets
`total` to `res.data.total` and returns the items; otherwise the previous
total is kept. (The case of a non-error response without data cannot occur
for openapi-fetch responses.) -/
def tableElementsStep (total : Nat) (res : ApiResponse (TableData I) E) :
    Nat × Option I :=
  match res.error, res.data with
  | none, some d => (d.total, some d.items)
  | _, _ => (total, none)

/-! ## Prediction-dataset import form (`ImportPredictionDataset.tsx`) -/

/-- `maxSizeMo` in `ImportPredictionDataset.tsx`. -/
def maxSizeMo : Nat := 50

/-- `maxSize = maxSizeMo * 1024 * 1024` in `ImportPredictionDataset.tsx`. -/
def maxSize : Nat := maxSizeMo * 1024 * 1024

/-- A file selected in the form; only its byte size is branched on. -/
structure SelectedFile where
  size : Nat
deriving DecidableEq, Repr

/-- The file-selection effect of `ImportPredictionDataset` (the `useEffect` on
`files`): for a non-empty selection, a file larger than `maxSize` produces one
error notification and is never loaded; otherwise `loadFile` runs once and its
result (`loadResult`, `null` on parse failure) either produces one error
notification leaving the dataset state unchanged, or is committed via
`setData`. Returns `(notifications, number of loadFile calls, dataset
state)`. -/
def importPredictionFile (files : List SelectedFile) (loadResult : Option T)
    (prevData : Option T) : List Notification × Nat × Option T :=
  match files with
  | [] => ([], 0, prevData)
  | file :: _ =>
    if file.size > maxSize then
      ([⟨.error, "File is too big (only file less than " ++ toString maxSizeMo
          ++ " are allowed)"⟩], 0, prevData)
    else
      match loadResult with
      | none => ([⟨.error, "Error reading the file"⟩], 1, prevData)
      | some d => ([], 1, some d)

/-! ## Theorems -/

theorem getHeader_setHeader (hs : Headers) (n v m : String) :
    getHeader (setHeader hs n v) m = if m = n then some v else getHeader hs m := by
  induction hs with
  | nil =>
    by_cases h : m = n
    · simp [setHeader, getHeader, h]
    · have hnm : ¬ n = m := fun hc => h hc.symm
      simp [setHeader, getHeader, h, hnm]
  | cons p rest ih =>
    by_cases hp : p.1 = n
    · by_cases h : m = n
      · simp [setHeader, getHeader, hp, h]
      · have hpm : ¬ p.1 = m := fun hc => h (hc.symm.trans hp)
        have hnm : ¬ n = m := fun hc => h hc.symm
        simp [setHeader, getHeader, hp, h, hpm, hnm]
    · by_cases hm : p.1 = m
      · have hmn : ¬ m = n := fun hc => hp (hm.trans hc)
        simp [setHeader, getHeader, hp, hm, hmn]
      · simp [setHeader, getHeader, hp, hm, ih]

/-- A header already present is preserved by the conditional-set fold of the
`SimpleModelManagement.tsx` middleware. -/
theorem foldl_condSet_preserves (ah : Headers) (req : Headers) (name v : String)
    (h : getHeader req name = some v) :
    getHeader (ah.foldl (fun r p => if getHeader r p.1 = none then setHeader r p.1 p.2 else r) req)
      name = some v := by
  induction ah generalizing req with
  | nil => simpa using h
  | cons p ah ih =>
    simp only [List.foldl]
    by_cases hu : getHeader req p.1 = none
    · rw [if_pos hu]
      refine ih _ ?_
      rw [getHeader_setHeader]
      have hne : ¬ name = p.1 := fun hc => by rw [hc, hu] at h; exact Option.noConfusion h
      rw [if_neg hne]; exact h
    · rw [if_neg hu]; exact ih _ h

/-- Claim C1 (amended): the auth middleware of the api module copy in
`SimpleModelManagement.tsx` reads the persisted credential and sets only the
authorization headers the caller has not already set — every header present
on the request before the middleware runs keeps its value — and, when a
credential is stored and no Authorization header is set, it injects the
bearer token. (The older middleware in `core/api.ts` instead sets the headers
unconditionally; see the counterexample.) -/
theorem authMiddlewareKeep_preserves_headers (stored : Option Credential) (req : Headers) :
    (∀ name v, getHeader req name = some v →
      getHeader (authMiddlewareKeep stored req) name = some v) ∧
    (∀ user, stored = some user → getHeader req "Authorization" = none →
      getHeader (authMiddlewareKeep stored req) "Authorization"
        = some ("Bearer " ++ user.token)) := by
  constructor
  · intro name v h
    cases stored with
    | none => simpa [authMiddlewareKeep] using h
    | some user =>
      simp only [authMiddlewareKeep, getAuthHeaders]
      exact foldl_condSet_preserves _ req name v h
  · intro user hst hnone
    subst hst
    simp only [authMiddlewareKeep, getAuthHeaders, List.foldl]
    rw [if_pos hnone, getHeader_setHeader, if_pos rfl]

/-- Witness for claim C1 at a concrete request: a caller-set content-type
header survives the middleware, and the bearer token is injected when no
Authorization header was set. -/
theorem authMiddlewareKeep_preserves_headers_witness :
    getHeader (authMiddlewareKeep (some ⟨"alice", "tok"⟩)
      [("Content-Type", "application/x-www-form-urlencoded")]) "Content-Type"
      = some "application/x-www-form-urlencoded" ∧
    getHeader (authMiddlewareKeep (some ⟨"alice", "tok"⟩)
      [("Content-Type", "application/x-www-form-urlencoded")]) "Authorization"
      = some ("Bearer " ++ "tok") :=
  ⟨(authMiddlewareKeep_preserves_headers (some ⟨"alice", "tok"⟩)
      [("Content-Type", "application/x-www-form-urlencoded")]).1
      "Content-Type" "application/x-www-form-urlencoded" (by decide),
   (authMiddlewareKeep_preserves_headers (some ⟨"alice", "tok"⟩)
      [("Content-Type", "application/x-www-form-urlencoded")]).2
      ⟨"alice", "tok"⟩ rfl (by decide)⟩

/-- Counterexample to claim C1 as stated: the `core/api.ts` middleware
overwrites a caller-set Authorization header (as set, e.g., by `logout`) with
the persisted credential's bearer token. -/
theorem authMiddlewareApi_overwrites :
    getHeader (authMiddlewareApi (some ⟨"alice", "newtoken"⟩)
      [("Authorization", "Bearer oldtoken")]) "Authorization"
      = some "Bearer newtoken" ∧
    getHeader [("Authorization", "Bearer oldtoken")] "Authorization"
      = some "Bearer oldtoken" ∧
    ("Bearer newtoken" : String) ≠ "Bearer oldtoken" := by
  refine ⟨?_, by decide, by decide⟩
  decide

theorem hookStep_resolve_latest (s : HookState α) (i : Nat) (v : α) :
    (hookStep s (HookEvent.resolve i v)).latest = s.latest := by
  simp only [hookStep]; split <;> rfl

theorem foldl_hookStep_latest (es : List (HookEvent α)) (s : HookState α) :
    (es.foldl hookStep s).latest = s.latest + startCount es := by
  induction es generalizing s with
  | nil => simp [startCount]
  | cons e es ih =>
    cases e with
    | start =>
      simp only [List.foldl, startCount, ih, hookStep]
      omega
    | resolve i v =>
      simp only [List.foldl, startCount, ih, hookStep_resolve_latest]

/-- Once the last-started invocation's result is committed, a start-free
suffix whose resolutions of that invocation all carry the same value leaves
the committed entry in place. -/
theorem foldl_hookStep_keep (t : List (HookEvent α)) (s : HookState α) (n : Nat) (v : α)
    (hns : ∀ e ∈ t, e ≠ HookEvent.start)
    (hlat : s.latest = n)
    (hcom : s.committed = some (n, v))
    (huni : ∀ w, HookEvent.resolve n w ∈ t → w = v) :
    (t.foldl hookStep s).committed = some (n, v) := by
  induction t generalizing s with
  | nil => simpa using hcom
  | cons e t ih =>
    cases e with
    | start =>
      exact absurd rfl (hns HookEvent.start (List.mem_cons_self _ _))
    | resolve i w =>
      simp only [List.foldl]
      by_cases h : i = s.latest
      · have hw : w = v := huni w (by rw [h, hlat]; exact List.mem_cons_self _ _)
        have hstep : hookStep s (HookEvent.resolve i w)
            = { s with committed := some (i, w) } := by simp [hookStep, h]
        rw [hstep]
        exact ih _ (fun e he => hns e (List.mem_cons_of_mem _ he)) hlat
          (by simp [h, hlat, hw]) (fun w' hw' => huni w' (List.mem_cons_of_mem _ hw'))
      · have hstep : hookStep s (HookEvent.resolve i w) = s := by simp [hookStep, h]
        rw [hstep]
        exact ih _ (fun e he => hns e (List.mem_cons_of_mem _ he)) hlat hcom
          (fun w' hw' => huni w' (List.mem_cons_of_mem _ hw'))

/-- In a start-free suffix containing the resolution of the last-started
invocation, that resolution's value ends up committed, whatever the
interleaving with stale resolutions. -/
theorem foldl_hookStep_reach (t : List (HookEvent α)) (s : HookState α) (n : Nat) (v : α)
    (hns : ∀ e ∈ t, e ≠ HookEvent.start)
    (hlat : s.latest = n)
    (hmem : HookEvent.resolve n v ∈ t)
    (huni : ∀ w, HookEvent.resolve n w ∈ t → w = v) :
    (t.foldl hookStep s).committed = some (n, v) := by
  induction t generalizing s with
  | nil => exact absurd hmem (List.not_mem_nil _)
  | cons e t ih =>
    cases e with
    | start =>
      exact absurd rfl (hns HookEvent.start (List.mem_cons_self _ _))
    | resolve i w =>
      simp only [List.foldl]
      by_cases h : i = n
      · have hw : w = v := huni w (by rw [h]; exact List.mem_cons_self _ _)
        have hstep : hookStep s (HookEvent.resolve i w)
            = { s with committed := some (i, w) } := by simp [hookStep, h, hlat]
        rw [hstep]
        exact foldl_hookStep_keep t _ n v
          (fun e he => hns e (List.mem_cons_of_mem _ he)) hlat (by simp [h, hw])
          (fun w' hw' => huni w' (List.mem_cons_of_mem _ hw'))
      · have hstep : hookStep s (HookEvent.resolve i w) = s := by
          simp [hookStep, hlat, h]
        rw [hstep]
        have hmem' : HookEvent.resolve n v ∈ t := by
          rcases List.mem_cons.mp hmem with heq | h' 
          · exact absurd (HookEvent.resolve.inj heq.symm).1 h
          · exact h'
        exact ih _ (fun e he => hns e (List.mem_cons_of_mem _ he)) hlat hmem'
          (fun w' hw' => huni w' (List.mem_cons_of_mem _ hw'))

/-- Claim C2: for every sequence of dependency changes to one `useAsyncMemo`
instance and every order in which the started producer invocations resolve,
the committed visible value is the result of the most recently started
invocation: after a trace `t₁`, a final dependency change starts invocation
`startCount t₁ + 1`, and whatever start-free interleaving `t₂` of resolutions
follows — stale invocations may resolve after the last-started one — the
committed entry is the last-started invocation's result. -/
theorem useAsyncMemo_last_started_wins (t₁ t₂ : List (HookEvent α)) (v : α)
    (hns : ∀ e ∈ t₂, e ≠ HookEvent.start)
    (hmem : HookEvent.resolve (startCount t₁ + 1) v ∈ t₂)
    (huni : ∀ w, HookEvent.resolve (startCount t₁ + 1) w ∈ t₂ → w = v) :
    (runHook (t₁ ++ HookEvent.start :: t₂)).committed = some (startCount t₁ + 1, v) := by
  have hsplit : runHook (t₁ ++ HookEvent.start :: t₂)
      = t₂.foldl hookStep (hookStep (runHook t₁) HookEvent.start) := by
    simp [runHook, List.foldl_append]
  rw [hsplit]
  have hlat : (hookStep (runHook t₁) HookEvent.start).latest = startCount t₁ + 1 := by
    have h1 : (runHook t₁).latest = startCount t₁ := by
      have := foldl_hookStep_latest t₁ (initHookState α)
      simpa [runHook, initHookState] using this
    simp [hookStep, h1]
  exact foldl_hookStep_reach t₂ _ (startCount t₁ + 1) v hns hlat hmem huni

/-- Witness for claim C2: two rapid dependency changes; the first-started
invocation resolves after the second-started one, yet the committed value is
the second invocation's result. -/
theorem useAsyncMemo_last_started_wins_witness :
    (runHook ([HookEvent.start] ++ HookEvent.start ::
        [HookEvent.resolve 2 (20 : Nat), HookEvent.resolve 1 10])).committed
      = some (2, 20) :=
  useAsyncMemo_last_started_wins [HookEvent.start]
    [HookEvent.resolve 2 (20 : Nat), HookEvent.resolve 1 10] 20
    (by decide) (by decide)
    (by
      intro w hw
      simp only [startCount, List.mem_cons, List.not_mem_nil, or_false] at hw
      rcases hw with h | h
      · exact (HookEvent.resolve.inj h).2
      · exact absurd (HookEvent.resolve.inj h).1 (by decide))

/-- Claim C3: for a well-formed openapi-fetch response (error absent exactly
when data is present), `login` returns the token payload when the response
carries data and no error; otherwise it raises an `HttpError` whose status is
the HTTP response status and whose message is the string-ified server
`detail`; in both cases the persisted credential store is untouched. -/
theorem login_spec (store : Option Credential) (res : ApiResponse D DetailError)
    (hwf : res.error.isNone ↔ res.data.isSome) :
    (∀ d, res.data = some d → loginCall store res = (.ok d, store)) ∧
    (∀ e, res.error = some e →
      loginCall store res = (.raised ⟨res.status, e.detail ++ ""⟩, store)) := by
  constructor
  · intro d hd
    have herr : res.error = none := by
      rw [hd] at hwf
      simpa [Option.isNone_iff_eq_none] using hwf
    simp [loginCall, login, hd, herr]
  · intro e he
    have hd : res.data = none := by
      rw [he] at hwf
      cases hdata : res.data with
      | none => rfl
      | some d => rw [hdata] at hwf; simp at hwf
    simp [loginCall, login, hd, he]

/-- Witness for claim C3: a successful login returns the payload, a failed
login raises `HttpError 401` with the server detail; the store (here `none`)
is unchanged in both cases. -/
theorem login_spec_witness :
    loginCall (D := String) none ⟨some "token-payload", none, 200⟩
      = (.ok "token-payload", none) ∧
    loginCall (D := String) none ⟨none, some ⟨"Incorrect username or password"⟩, 401⟩
      = (.raised ⟨401, "Incorrect username or password" ++ ""⟩, none) :=
  ⟨(login_spec none ⟨some "token-payload", none, 200⟩ (by simp)).1
      "token-payload" rfl,
   (login_spec none ⟨none, some ⟨"Incorrect username or password"⟩, 401⟩ (by simp)).2
      ⟨"Incorrect username or password"⟩ rfl⟩

/-- Claim C4: `logout` returns successfully if and only if the HTTP response
status is exactly 200, in which case the auth-context flow clears the
persisted credential; on every non-200 status it raises an `HttpError`
carrying that status and the credential store is left unchanged. -/
theorem logout_spec (store : Option Credential) (res : ApiResponse D E) :
    (res.status = 200 → logoutFlow store res = (.ok true, none)) ∧
    (res.status ≠ 200 →
      logoutFlow store res = (.raised ⟨res.status, "could not logout"⟩, store)) := by
  constructor <;> intro h <;> simp [logoutFlow, logout, h]

/-- Witness for claim C4: a 200 response clears the stored credential; a 500
response raises and leaves it in place. -/
theorem logout_spec_witness :
    logoutFlow (D := Unit) (E := Unit) (some ⟨"alice", "tok"⟩) ⟨some (), none, 200⟩
      = (.ok true, none) ∧
    logoutFlow (D := Unit) (E := Unit) (some ⟨"alice", "tok"⟩) ⟨none, some (), 500⟩
      = (.raised ⟨500, "could not logout"⟩, some ⟨"alice", "tok"⟩) :=
  ⟨(logout_spec (some ⟨"alice", "tok"⟩) ⟨some (), none, 200⟩).1 rfl,
   (logout_spec (some ⟨"alice", "tok"⟩) ⟨none, some (), 500⟩).2 (by decide)⟩

/-- Counterexample to claim C5 as stated: on an error response
`useCreateProject` raises (an `Error` whose message joins the detail
messages) instead of notifying and returning a failure indicator, and
`useRenameLabel` returns `true` — a truthy value, not a falsy/failure
indicator — after notifying the error. -/
theorem createProject_raises_on_error :
    createProject (D := Unit)
        ⟨none, some ⟨some [⟨"Project already exists"⟩], "err"⟩, 500⟩
      = (.raised "Project already exists", []) ∧
    renameLabel (D := Unit) (E := Unit) (some "proj") (some "scheme")
        ⟨none, some (), 500⟩
      = (1, [⟨.error, "Error when renamed"⟩], true) := by
  constructor <;> rfl

/-- Claim C5 (amended): on a server response carrying an error, mutating hooks
other than login/logout do not raise uniformly: `useRenameLabel` reports the
failure via exactly one error notification and returns — though the returned
value is `true`, not a falsy indicator — while `useCreateProject` emits no
notification and raises an `Error` joining the server detail messages with
"; ". -/
theorem mutating_hook_error_reporting (p s : String) (res : ApiResponse D E)
    (resC : ApiResponse G CreateProjectError)
    (e : CreateProjectError) (ds : List ValidationDetail)
    (herr : res.error.isSome) (hC : resC.error = some e) (hd : e.detail = some ds) :
    renameLabel (some p) (some s) res = (1, [⟨.error, "Error when renamed"⟩], true) ∧
    createProject resC
      = (.raised (String.intercalate "; " (ds.map (fun d => d.msg))), []) := by
  constructor
  · have hfalse : res.error.isNone = false := by
      cases h : res.error with
      | none => rw [h] at herr; simp at herr
      | some e => simp
    simp [renameLabel, hfalse]
  · simp [createProject, hC, hd]

/-- Witness for claim C5 (amended): concrete error responses for
`useRenameLabel` and `useCreateProject`. -/
theorem mutating_hook_error_reporting_witness :
    renameLabel (D := Unit) (E := Unit) (some "p") (some "s") ⟨none, some (), 422⟩
      = (1, [⟨.error, "Error when renamed"⟩], true) ∧
    createProject (D := Unit) ⟨none, some ⟨some [⟨"bad name"⟩, ⟨"too long"⟩], "err"⟩, 422⟩
      = (.raised (String.intercalate "; "
          (([⟨"bad name"⟩, ⟨"too long"⟩] : List ValidationDetail).map (fun d => d.msg))), []) :=
  mutating_hook_error_reporting "p" "s" ⟨none, some (), 422⟩
    ⟨none, some ⟨some [⟨"bad name"⟩, ⟨"too long"⟩], "err"⟩, 422⟩
    ⟨some [⟨"bad name"⟩, ⟨"too long"⟩], "err"⟩ [⟨"bad name"⟩, ⟨"too long"⟩]
    (by decide) rfl rfl

/-- Claim C6: a Domain Operation Hook invoked while a required parameter is
missing performs zero HTTP calls; `useGetNextElementId` emits exactly one
error notification "Select a project/scheme to get elements", while
`useAddLabel` and `useDeleteScheme` skip silently (no notification) and
return their failure indicator. -/
theorem missing_param_skips_call (p s : Option String)
    (res₁ : ApiResponse ElementNext E) (res₂ : ApiResponse D E)
    (res₃ : ApiResponse G E') (h : p = none ∨ s = none) :
    getNextElementId p s res₁
      = (0, [⟨.error, "Select a project/scheme to get elements"⟩], none) ∧
    addLabel p s res₂ = (0, [], false) ∧
    deleteScheme none res₃ = (0, []) := by
  rcases h with h | h <;> subst h
  · refine ⟨?_, ?_, rfl⟩ <;> cases s <;> rfl
  · refine ⟨?_, ?_, rfl⟩ <;> cases p <;> rfl

/-- Witness for claim C6: with no project selected, the three hooks make no
call; only `getNextElementId` notifies. -/
theorem missing_param_skips_call_witness :
    getNextElementId (E := Unit) none (some "scheme") ⟨none, none, 0⟩
      = (0, [⟨.error, "Select a project/scheme to get elements"⟩], none) ∧
    addLabel (D := Unit) (E := Unit) none (some "scheme") ⟨none, none, 0⟩
      = (0, [], false) ∧
    deleteScheme (D := Unit) (E := Unit) none ⟨none, none, 0⟩ = (0, []) :=
  missing_param_skips_call none (some "scheme") ⟨none, none, 0⟩ ⟨none, none, 0⟩
    ⟨none, none, 0⟩ (Or.inl rfl)

/-- Claim C7: for each export hook (annotations, predictions, features) with a
requested format, a successful blob response produces exactly one save action
whose file name is the artifact kind concatenated with "." and the format;
an error response produces no save action. -/
theorem export_file_saves (p format : String) (resA resP resF : ApiResponse B E) :
    (resA.error = none →
      (getAnnotationsFile (some p) format resA).2.1
        = [(resA.data, "annotations." ++ format)]) ∧
    (resA.error ≠ none → (getAnnotationsFile (some p) format resA).2.1 = []) ∧
    (resP.error = none →
      (getPredictionsFile (some p) format resP).2.1
        = [(resP.data, "predictions." ++ format)]) ∧
    (resP.error ≠ none → (getPredictionsFile (some p) format resP).2.1 = []) ∧
    (resF.error = none →
      (getFeaturesFile (some p) format resF).2.1
        = [(resF.data, "features." ++ format)]) ∧
    (resF.error ≠ none → (getFeaturesFile (some p) format resF).2.1 = []) := by
  refine ⟨?_, ?_, ?_, ?_, ?_, ?_⟩ <;> intro h <;>
    simp [getAnnotationsFile, getPredictionsFile, getFeaturesFile,
      Option.isNone_iff_eq_none, h]

/-- Witness for claim C7: a successful csv export saves exactly one file with
the right name; a failed parquet export saves nothing. -/
theorem export_file_saves_witness :
    (getAnnotationsFile (B := String) (E := Unit) (some "proj") "csv"
        ⟨some "blob", none, 200⟩).2.1 = [(some "blob", "annotations." ++ "csv")] ∧
    (getPredictionsFile (B := String) (E := Unit) (some "proj") "parquet"
        ⟨none, some (), 500⟩).2.1 = [] ∧
    (getFeaturesFile (B := String) (E := Unit) (some "proj") "csv"
        ⟨some "blob", none, 200⟩).2.1 = [(some "blob", "features." ++ "csv")] :=
  ⟨(export_file_saves "proj" "csv" ⟨some "blob", none, 200⟩ ⟨some "blob", none, 200⟩
      ⟨some "blob", none, 200⟩).1 rfl,
   (export_file_saves (B := String) (E := Unit) "proj" "parquet" ⟨none, some (), 500⟩
      ⟨none, some (), 500⟩ ⟨none, some (), 500⟩).2.2.2.1 (by simp),
   (export_file_saves "proj" "csv" ⟨some "blob", none, 200⟩ ⟨some "blob", none, 200⟩
      ⟨some "blob", none, 200⟩).2.2.2.2.1 rfl⟩

/-- Claim C8: on a non-error server response with all required parameters
present, the mutating hooks that start a long-running server job (add
feature, train simple model, train BERT model, compute projection, compute
prediction) emit exactly one warning notification, and the hooks whose
mutation completes immediately (add/delete/rename label, add/delete scheme,
create/delete project) emit exactly one success notification. -/
theorem notification_kind_by_operation (p s t m : String) (fs : List String)
    (prm : P) (df : F) (res : ApiResponse D E) (resC : ApiResponse G CreateProjectError)
    (ht : t ≠ "") (hm : m ≠ "") (herr : res.error = none) (herrC : resC.error = none) :
    (addFeature (some p) t (some prm) res).2.1
      = [⟨.warning, "Features are under computation..."⟩] ∧
    (updateSimpleModel (some p) (some s) (some fs) m (some prm) res).2.1
      = [⟨.warning, "Model under training"⟩] ∧
    (trainBertModel (some p) (some s) (some df) res).2.1
      = [⟨.warning, "Starting bertmodel training"⟩] ∧
    (updateProjection (some p) (some s) (some fs) (some prm) res).2.1
      = [⟨.warning, "Projection under training"⟩] ∧
    (computeModelPrediction (some p) res).2.1
      = [⟨.warning, "Computing prediction. It can take some time."⟩] ∧
    (addLabel (some p) (some s) res).2.1 = [⟨.success, "New label created"⟩] ∧
    (deleteLabel (some p) (some s) res).2.1 = [⟨.success, "Label deleted"⟩] ∧
    (renameLabel (some p) (some s) res).2.1 = [⟨.success, "Label renamed"⟩] ∧
    (addScheme m res).2.1 = [⟨.success, "Scheme add"⟩] ∧
    (deleteScheme (some s) res).2 = [⟨.success, "Scheme deleted"⟩] ∧
    (createProject resC).2 = [⟨.success, "Project created"⟩] ∧
    (deleteProject res).2 = [⟨.success, "Project deleted"⟩] := by
  refine ⟨?_, ?_, ?_, ?_, ?_, ?_, ?_, ?_, ?_, ?_, ?_, ?_⟩ <;>
    simp [addFeature, updateSimpleModel, trainBertModel, updateProjection,
      computeModelPrediction, addLabel, deleteLabel, renameLabel, addScheme,
      deleteScheme, createProject, deleteProject, ht, hm, herr, herrC]

/-- Witness for claim C8 at concrete parameters and successful responses. -/
theorem notification_kind_by_operation_witness :
    (addFeature (P := Unit) (D := Unit) (E := Unit) (some "p") "sbert" (some ()) 
        ⟨some (), none, 200⟩).2.1 = [⟨.warning, "Features are under computation..."⟩] ∧
    (updateSimpleModel (P := Unit) (D := Unit) (E := Unit) (some "p") (some "s")
        (some ["sbert"]) "liblinear" (some ()) ⟨some (), none, 200⟩).2.1
      = [⟨.warning, "Model under training"⟩] ∧
    (addLabel (D := Unit) (E := Unit) (some "p") (some "s") ⟨some (), none, 200⟩).2.1
      = [⟨.success, "New label created"⟩] ∧
    (createProject (D := Unit) ⟨some (), none, 200⟩).2
      = [⟨.success, "Project created"⟩] := by
  have h := notification_kind_by_operation (P := Unit) (F := Unit) (D := Unit)
    (E := Unit) (G := Unit) "p" "s" "sbert" "liblinear" ["sbert"] () ()
    ⟨some (), none, 200⟩ ⟨some (), none, 200⟩ (by decide) (by decide) rfl rfl
  exact ⟨h.1, h.2.1, h.2.2.2.2.2.1, h.2.2.2.2.2.2.2.2.2.2.1⟩

/-- Claim C9: a page request of `useTableElements` with 1-based page index `p`
and page size `s` sends the range `min = (p-1)*s`,
`max = Math.min(p*s, total)`, where `total` is initialised to 0 and updated
from each committed response; in particular the first fetch of any table
requests `max = 0` whatever the page size. -/
theorem useTableElements_range (p s total : Nat) (hp : 1 ≤ p)
    (res : ApiResponse (TableData I) E) (d : TableData I)
    (herr : res.error = none) (hd : res.data = some d) :
    (tableElementsQuery ⟨p, s⟩ total).min = (p - 1) * s ∧
    (tableElementsQuery ⟨p, s⟩ total).max = Nat.min (p * s) total ∧
    (tableElementsQuery ⟨p, s⟩ initialTableTotal).max = 0 ∧
    (tableElementsStep total res).1 = d.total := by
  refine ⟨rfl, rfl, ?_, ?_⟩
  · simp [tableElementsQuery, initialTableTotal]
  · simp [tableElementsStep, herr, hd]

/-- Witness for claim C9: the first fetch of page 1 with page size 10
requests `min = 0, max = 0`; after a response reporting 37 elements the same
page requests `max = 10`. -/
theorem useTableElements_range_witness :
    (tableElementsQuery ⟨1, 10⟩ initialTableTotal).max = 0 ∧
    (tableElementsStep (I := Unit) (E := Unit) initialTableTotal
        ⟨some ⟨37, ()⟩, none, 200⟩).1 = 37 ∧
    (tableElementsQuery ⟨1, 10⟩ 37).min = 0 ∧
    (tableElementsQuery ⟨1, 10⟩ 37).max = 10 :=
  ⟨(useTableElements_range (I := Unit) (E := Unit) 1 10 initialTableTotal (by decide)
      ⟨some ⟨37, ()⟩, none, 200⟩ ⟨37, ()⟩ rfl rfl).2.2.1,
   (useTableElements_range (I := Unit) (E := Unit) 1 10 initialTableTotal (by decide)
      ⟨some ⟨37, ()⟩, none, 200⟩ ⟨37, ()⟩ rfl rfl).2.2.2,
   (useTableElements_range (I := Unit) (E := Unit) 1 10 37 (by decide)
      ⟨some ⟨37, ()⟩, none, 200⟩ ⟨37, ()⟩ rfl rfl).1,
   (useTableElements_range (I := Unit) (E := Unit) 1 10 37 (by decide)
      ⟨some ⟨37, ()⟩, none, 200⟩ ⟨37, ()⟩ rfl rfl).2.1⟩

/-- Claim C10: a file selected in the prediction-dataset import form whose
size strictly exceeds 50*1024*1024 bytes produces exactly one error
notification, is never loaded, and leaves the previewed dataset unchanged; a
file at or below that size is loaded once, and a parse failure produces
exactly one error notification leaving the dataset unchanged, while a parsed
dataset is committed. -/
theorem import_prediction_size_guard (f : SelectedFile) (fs : List SelectedFile)
    (load : Option T) (prev : Option T) :
    (f.size > 50 * 1024 * 1024 →
      importPredictionFile (f :: fs) load prev
        = ([⟨.error, "File is too big (only file less than 50 are allowed)"⟩], 0, prev)) ∧
    (f.size ≤ 50 * 1024 * 1024 →
      (importPredictionFile (f :: fs) load prev).2.1 = 1 ∧
      (load = none →
        importPredictionFile (f :: fs) load prev
          = ([⟨.error, "Error reading the file"⟩], 1, prev)) ∧
      (∀ d, load = some d →
        importPredictionFile (f :: fs) load prev = ([], 1, some d))) := by
  have hmax : maxSize = 50 * 1024 * 1024 := rfl
  have hmsg : "File is too big (only file less than " ++ toString maxSizeMo
      ++ " are allowed)" = "File is too big (only file less than 50 are allowed)" := rfl
  constructor
  · intro h
    rw [← hmsg]
    simp [importPredictionFile, hmax, h]
  · intro h
    have hno : ¬ f.size > maxSize := by rw [hmax]; omega
    refine ⟨?_, ?_, ?_⟩
    · cases load <;> simp [importPredictionFile, hno]
    · intro hl; simp [importPredictionFile, hno, hl]
    · intro d hl; simp [importPredictionFile, hno, hl]

/-- Witness for claim C10: a 60 MB file is rejected without loading; a 1 MB
file whose parse fails notifies once and keeps the previous dataset; a 1 MB
file that parses is committed. -/
theorem import_prediction_size_guard_witness :
    importPredictionFile (T := Nat) [⟨60 * 1024 * 1024⟩] none (some 7)
      = ([⟨.error, "File is too big (only file less than 50 are allowed)"⟩], 0, some 7) ∧
    importPredictionFile (T := Nat) [⟨1024 * 1024⟩] none (some 7)
      = ([⟨.error, "Error reading the file"⟩], 1, some 7) ∧
    importPredictionFile (T := Nat) [⟨1024 * 1024⟩] (some 9) (some 7)
      = ([], 1, some 9) :=
  ⟨(import_prediction_size_guard ⟨60 * 1024 * 1024⟩ [] none (some 7)).1 (by norm_num),
   ((import_prediction_size_guard ⟨1024 * 1024⟩ [] none (some 7)).2 (by norm_num)).2.1 rfl,
   ((import_prediction_size_guard ⟨1024 * 1024⟩ [] (some 9) (some 7)).2
      (by norm_num)).2.2 9 rfl⟩
